import Mathlib

/-!
Shallow embedding of `generate.py` (random Gaussian cluster generator).

The Python program draws from one shared sequential random source
(`random.randint`, `random.uniform`, `random.gauss`).  We model that source
as a stream `ℕ → ℚ` together with a position; every draw consumes exactly
one stream element and advances the position.  Floats are modelled as
rationals.  `randint a b` returns an integer in `[a, b]` (Python raises when
`a > b`; every call site in `run` pre-clamps the lower bound so `a ≤ b`
always holds there).  `uniform a b` returns `a + (b - a) * u` with
`u ∈ [0, 1)`, matching CPython's `a + (b-a)*random()`.  `gauss mu sigma`
returns `mu + sigma * z` where `z` is the (arbitrary) stream value: the
Gaussian transform of the underlying entropy is irrelevant to every claim,
only the consumption order and the affine shape matter.
-/

structure RNG where
  stream : ℕ → ℚ
  pos : ℕ

/-- One raw draw: the current stream value, and the advanced generator. -/
def RNG.next (g : RNG) : ℚ × RNG :=
  (g.stream g.pos, ⟨g.stream, g.pos + 1⟩)

/-- Interpret a raw stream value as nonnegative integer entropy. -/
def pickNat (q : ℚ) : ℕ := q.num.natAbs

/-- Python `random.randint(a, b)`: uniform integer in `[a, b]` (inclusive).
Consumes one draw.  (CPython raises `ValueError` when `a > b`; in this
program `run` clamps the lower bound first, so call sites have `a ≤ b`.) -/
def randint (a b : ℤ) (g : RNG) : ℤ × RNG :=
  let (q, g') := g.next
  (a + ((pickNat q % (b - a + 1).toNat : ℕ) : ℤ), g')

/-- The raw stream value mapped into `[0,1)`: the model of Python's
`random()`.  (`Rat.floor` rather than the `FloorRing` class, so the
definition evaluates by kernel reduction.) -/
def pyRandom (q : ℚ) : ℚ := q - Rat.floor q

/-- Python `random.uniform(a, b) = a + (b-a)*random()` with
`random() ∈ [0,1)`.  Consumes one draw. -/
def uniform (a b : ℚ) (g : RNG) : ℚ × RNG :=
  let (q, g') := g.next
  (a + (b - a) * pyRandom q, g')

/-- Python `random.gauss(mu, sigma)`: a Gaussian draw, modelled as
`mu + sigma * z` for the raw stream value `z` (any rational).  Consumes one
draw. -/
def gauss (mu : ℤ) (sigma : ℚ) (g : RNG) : ℚ × RNG :=
  let (q, g') := g.next
  ((mu : ℚ) + sigma * q, g')

/-- Python `int(float)`: truncation toward zero. -/
def pyInt (q : ℚ) : ℤ :=
  if 0 ≤ q then Rat.floor q else Rat.ceil q

/-- `generate_cluster(num_points, mean_x, mean_y, sigma)`: `num_points`
points, each `(int(gauss(mean_x, sigma)), int(gauss(mean_y, sigma)))`,
the x draw before the y draw. -/
def generate_cluster : ℕ → ℤ → ℤ → ℚ → RNG → List (ℤ × ℤ) × RNG
  | 0, _, _, _, g => ([], g)
  | Nat.succ k, mean_x, mean_y, sigma, g =>
    let (qx, g1) := gauss mean_x sigma g
    let (qy, g2) := gauss mean_y sigma g1
    let (rest, g3) := generate_cluster k mean_x mean_y sigma g2
    ((pyInt qx, pyInt qy) :: rest, g3)

/-- The `limits` dict passed to `generate_clusters`. -/
structure Limits where
  min_points : ℤ
  max_points : ℤ
  min_x : ℤ
  max_x : ℤ
  min_y : ℤ
  max_y : ℤ
  min_sigma : ℚ
  max_sigma : ℚ
deriving DecidableEq

/-- One ground-truth record `{'mean': …, 'sigma': …, 'n': …}`. -/
structure GroundTruthEntry where
  mean : ℤ × ℤ
  sigma : ℚ
  n : ℕ
deriving DecidableEq

/-- The loop body of `generate_clusters`, iterated `num_clusters` times.
Per iteration the draws happen in the source's order: `randint` for the
center x (line 83), `randint` for the center y (line 84), `uniform` for
sigma (line 86), then — evaluated at the call on line 88 — `randint` for
the point count, and finally the per-point `gauss` draws inside
`generate_cluster`.  Python's `range` of a negative count is empty, hence
`Int.toNat` on the drawn point count. -/
def generate_clusters_loop : ℕ → Limits → RNG → List (List (ℤ × ℤ)) × List GroundTruthEntry × RNG
  | 0, _, g => ([], [], g)
  | Nat.succ k, L, g =>
    let (x, g1) := randint L.min_x L.max_x g
    let (y, g2) := randint L.min_y L.max_y g1
    let (s, g3) := uniform L.min_sigma L.max_sigma g2
    let (np, g4) := randint L.min_points L.max_points g3
    let (pts, g5) := generate_cluster np.toNat x y s g4
    let (cs, gt, g6) := generate_clusters_loop k L g5
    (pts :: cs, ⟨(x, y), s, pts.length⟩ :: gt, g6)

/-- `generate_clusters(num_clusters, limits)`: returns the per-cluster point
lists and the ground-truth records, in generation order.  `num_clusters` is
a Python int; `range` of a negative value is empty. -/
def generate_clusters (num_clusters : ℤ) (L : Limits) (g : RNG) :
    List (List (ℤ × ℤ)) × List GroundTruthEntry × RNG :=
  generate_clusters_loop num_clusters.toNat L g

/-- Modelled from the spec: the sampler's draw order as §4.1 states it —
point count first, then center x, center y, sigma, then the points.  This
definition follows the spec's words, for comparison with
`generate_clusters_loop` (which follows the source). -/
def generate_clusters_spec_order_loop : ℕ → Limits → RNG → List (List (ℤ × ℤ)) × List GroundTruthEntry × RNG
  | 0, _, g => ([], [], g)
  | Nat.succ k, L, g =>
    let (np, g1) := randint L.min_points L.max_points g
    let (x, g2) := randint L.min_x L.max_x g1
    let (y, g3) := randint L.min_y L.max_y g2
    let (s, g4) := uniform L.min_sigma L.max_sigma g3
    let (pts, g5) := generate_cluster np.toNat x y s g4
    let (cs, gt, g6) := generate_clusters_spec_order_loop k L g5
    (pts :: cs, ⟨(x, y), s, pts.length⟩ :: gt, g6)

/-!
Serialization.  `write_points_to_file` prints, per point, the components'
decimal string forms joined by a single space.  We model a written line as a
list of characters.  `natToDigits` uses explicit fuel (`n + 1` always
suffices since `n / 10 < n` for `n ≥ 10`) so that every definition reduces
structurally.
-/

/-- Decimal digits of `n`, most significant first, with fuel. -/
def natToDigitsAux : ℕ → ℕ → List ℕ
  | 0, _ => []
  | Nat.succ fuel, n =>
    if n < 10 then [n] else natToDigitsAux fuel (n / 10) ++ [n % 10]

/-- Decimal digits of `n`, most significant first (`0 ↦ [0]`). -/
def natToDigits (n : ℕ) : List ℕ := natToDigitsAux (n + 1) n

/-- Value of a most-significant-first digit list. -/
def digitsVal (ds : List ℕ) : ℕ := ds.foldl (fun a d => a * 10 + d) 0

/-- Character of a decimal digit. -/
def digitToChar (d : ℕ) : Char := Char.ofNat (48 + d)

/-- Digit of a decimal character. -/
def charToDigit (c : Char) : ℕ := c.toNat - 48

/-- Whether `c` is a decimal digit character. -/
def isDigitChar (c : Char) : Bool := 48 ≤ c.toNat && c.toNat ≤ 57

/-- Python `str(n)` for a natural number, as characters. -/
def natChars (n : ℕ) : List Char := (natToDigits n).map digitToChar

/-- Python `str(z)` for an integer: a minus sign before the digits when
negative. -/
def intChars (z : ℤ) : List Char :=
  if z < 0 then Char.ofNat 45 :: natChars z.natAbs else natChars z.toNat

/-- `" ".join(str(component) for component in point)` for a 2-D point. -/
def lineOf (p : ℤ × ℤ) : List Char :=
  intChars p.1 ++ Char.ofNat 32 :: intChars p.2

/-- `write_points_to_file(points, file)`: one line per point, in order. -/
def write_points_to_file (points : List (ℤ × ℤ)) : List (List Char) :=
  points.map lineOf

/-- Split on runs of spaces, dropping empty pieces (Python `str.split()`). -/
def splitWsAux : List Char → List Char → List (List Char)
  | [], acc => if acc.isEmpty then [] else [acc.reverse]
  | c :: cs, acc =>
    if c = Char.ofNat 32 then
      if acc.isEmpty then splitWsAux cs [] else acc.reverse :: splitWsAux cs []
    else splitWsAux cs (c :: acc)

/-- Split a line on whitespace. -/
def splitWs (cs : List Char) : List (List Char) := splitWsAux cs []

/-- Parse a nonempty all-digit character list as a natural number. -/
def parseNat (cs : List Char) : Option ℕ :=
  if cs ≠ [] ∧ cs.all isDigitChar then some (digitsVal (cs.map charToDigit)) else none

/-- Python `int(s)` on a decimal string: optional leading minus sign, then
digits. -/
def parseInt (cs : List Char) : Option ℤ :=
  if cs.head? = some (Char.ofNat 45) then (parseNat cs.tail).map (fun n => -(Int.ofNat n))
  else (parseNat cs).map (fun n => Int.ofNat n)

/-!
The `run` pipeline.  Command-line arguments are modelled as the resolved
record `Args` (file names and the seed are abstracted: the destination
files' health is the `IOEnv` record, and the seeded random source is the
`RNG` argument).  `run` clamps only the lower bound of each min/max pair
(`min(args.min_x, args.max_x)` etc., lines 157–164), generates the
clusters, flattens the points, writes the points file then the centroids
file (an exception while opening/writing a file aborts the rest of the
pipeline), prints the parameters and the ground truth, and finally calls
`show_plot`.
-/

/-- The resolved command-line arguments consumed by `run`. -/
structure Args where
  num_clusters : ℤ
  min_points : ℤ
  max_points : ℤ
  min_x : ℤ
  max_x : ℤ
  min_y : ℤ
  max_y : ℤ
  min_sigma : ℚ
  max_sigma : ℚ
deriving DecidableEq

/-- The `limits` dict built inside `run` (lines 156–165): only the lower
bound of each pair is clamped with `min`; the upper bound is passed as
given. -/
def normalizeLimits (a : Args) : Limits :=
  { min_points := min a.min_points a.max_points
    max_points := a.max_points
    min_x := min a.min_x a.max_x
    max_x := a.max_x
    min_y := min a.min_y a.max_y
    max_y := a.max_y
    min_sigma := min a.min_sigma a.max_sigma
    max_sigma := a.max_sigma }

/-- Health of the two output destinations: whether each file can be opened
and written. -/
structure IOEnv where
  pointsOpenOk : Bool
  centroidsOpenOk : Bool
deriving DecidableEq

/-- The data handed to the plotting backend by `show_plot`. -/
structure PlotData where
  points : List (ℤ × ℤ)
  centroids : List (ℤ × ℤ)
  titleClusterCount : ℤ
deriving DecidableEq

/-- `show_plot(points, centroids, title)`: if `pyplot is None` the function
returns immediately (no plot, no error); otherwise it renders the scatter
plot.  The result is `Except`, recording that the unavailable branch raises
nothing. -/
def show_plot (pyplotAvailable : Bool) (points centroids : List (ℤ × ℤ))
    (titleClusterCount : ℤ) : Except Unit (Option PlotData) :=
  if pyplotAvailable then Except.ok (some ⟨points, centroids, titleClusterCount⟩)
  else Except.ok none

/-- Observable outcome of `run`: the two files' contents (`none` = never
written), the console summary (parameter echo and ground-truth listing),
the plot, and whether the run failed with an I/O error. -/
structure RunState where
  pointsFile : Option (List (List Char))
  centroidsFile : Option (List (List Char))
  console : Option (Args × List GroundTruthEntry)
  plot : Option PlotData
  failed : Bool
deriving DecidableEq

/-- `run()`: seed (abstracted into `g`), generate the clusters with the
clamped limits, flatten the points, write the points file, write the
centroids file, print the parameters and ground truth, show the plot.  An
I/O failure raises, aborting every later step. -/
def run (a : Args) (env : IOEnv) (pyplotAvailable : Bool) (g : RNG) : RunState :=
  let (clusters, ground_truth, _) := generate_clusters a.num_clusters (normalizeLimits a) g
  let points := clusters.flatten
  let centroids := ground_truth.map (·.mean)
  if env.pointsOpenOk = false then
    { pointsFile := none, centroidsFile := none, console := none, plot := none, failed := true }
  else if env.centroidsOpenOk = false then
    { pointsFile := some (write_points_to_file points), centroidsFile := none,
      console := none, plot := none, failed := true }
  else
    { pointsFile := some (write_points_to_file points)
      centroidsFile := some (write_points_to_file centroids)
      console := some (a, ground_truth)
      plot := match show_plot pyplotAvailable points centroids a.num_clusters with
        | Except.ok p => p
        | Except.error _ => none
      failed := false }

/-!
Bridging lemmas: the executable `Rat.floor`/`Rat.ceil` agree with the
`FloorRing` operations, and the draw results lie in their ranges.
-/

theorem ratFloor_eq_floor (q : ℚ) : Rat.floor q = ⌊q⌋ := by
  rw [Rat.floor_def', Rat.floor_def]

theorem ratCeil_eq_ceil (q : ℚ) : Rat.ceil q = ⌈q⌉ := by
  unfold Rat.ceil
  split
  · rename_i h
    conv_rhs => rw [← Rat.coe_int_num_of_den_eq_one h]
    rw [Int.ceil_intCast]
  · rename_i h
    have hfl : q.num / (q.den : ℤ) = ⌊q⌋ := Rat.floor_def.symm
    rw [hfl]
    symm
    rw [Int.ceil_eq_iff]
    have hle : (⌊q⌋ : ℚ) ≤ q := Int.floor_le q
    have hne : (⌊q⌋ : ℚ) ≠ q := by
      intro he
      exact h (by rw [← he]; exact Rat.den_intCast _)
    constructor
    · push_cast
      have := lt_of_le_of_ne hle hne
      linarith
    · push_cast
      have := Int.lt_floor_add_one q
      linarith

theorem pyRandom_eq_fract (q : ℚ) : pyRandom q = Int.fract q := by
  rw [pyRandom, ratFloor_eq_floor, Int.fract]

theorem pyRandom_nonneg (q : ℚ) : 0 ≤ pyRandom q := by
  rw [pyRandom_eq_fract]; exact Int.fract_nonneg q

theorem pyRandom_lt_one (q : ℚ) : pyRandom q < 1 := by
  rw [pyRandom_eq_fract]; exact Int.fract_lt_one q

theorem randint_mem (a b : ℤ) (g : RNG) (h : a ≤ b) :
    a ≤ (randint a b g).1 ∧ (randint a b g).1 ≤ b := by
  have ht : 0 < (b - a + 1).toNat := by omega
  have hm : pickNat (g.next.1) % (b - a + 1).toNat < (b - a + 1).toNat :=
    Nat.mod_lt _ ht
  simp only [randint]
  constructor
  · omega
  · have : ((pickNat (g.next.1) % (b - a + 1).toNat : ℕ) : ℤ) < b - a + 1 := by
      omega
    omega

theorem uniform_mem (a b : ℚ) (g : RNG) (h : a ≤ b) :
    a ≤ (uniform a b g).1 ∧ (uniform a b g).1 ≤ b := by
  simp only [uniform]
  have h0 := pyRandom_nonneg (g.next.1)
  have h1 := (pyRandom_lt_one (g.next.1)).le
  have hba : (0 : ℚ) ≤ b - a := by linarith
  constructor
  · nlinarith
  · nlinarith

theorem generate_cluster_length (n : ℕ) (mx my : ℤ) (s : ℚ) (g : RNG) :
    ((generate_cluster n mx my s g).1).length = n := by
  induction n generalizing g with
  | zero => rfl
  | succ k ih => simp [generate_cluster, ih]

theorem generate_clusters_loop_clusters_length (k : ℕ) (L : Limits) (g : RNG) :
    ((generate_clusters_loop k L g).1).length = k := by
  induction k generalizing g with
  | zero => rfl
  | succ j ih => simp [generate_clusters_loop, ih]

theorem generate_clusters_loop_gt_length (k : ℕ) (L : Limits) (g : RNG) :
    ((generate_clusters_loop k L g).2.1).length = k := by
  induction k generalizing g with
  | zero => rfl
  | succ j ih => simp [generate_clusters_loop, ih]

theorem generate_clusters_loop_n_eq (k : ℕ) (L : Limits) (g : RNG) :
    ((generate_clusters_loop k L g).2.1).map (fun e => e.n)
      = ((generate_clusters_loop k L g).1).map List.length := by
  induction k generalizing g with
  | zero => rfl
  | succ j ih => simp [generate_clusters_loop, ih]

/-- C4: for every configuration (any cluster count, limits and entropy
stream), the length of the flattened point list equals the sum of the `n`
fields of the ground-truth records. -/
theorem flat_points_length_eq_sum_n (num_clusters : ℤ) (L : Limits) (g : RNG) :
    (((generate_clusters num_clusters L g).1).flatten).length
      = ((((generate_clusters num_clusters L g).2.1)).map (fun e => e.n)).sum := by
  rw [List.length_flatten, generate_clusters, generate_clusters_loop_n_eq]

/-- C5: for every configuration with a nonnegative cluster count, the
ground-truth list has exactly `num_clusters` entries, and its entries are
index-aligned with the clusters in generation order (the i-th record's `n`
is the i-th generated cluster's size). -/
theorem ground_truth_length_eq_num_clusters (num_clusters : ℤ) (L : Limits) (g : RNG)
    (h : 0 ≤ num_clusters) :
    ((((generate_clusters num_clusters L g).2.1).length : ℤ) = num_clusters) ∧
    ((generate_clusters num_clusters L g).2.1).map (fun e => e.n)
      = ((generate_clusters num_clusters L g).1).map List.length := by
  refine ⟨?_, generate_clusters_loop_n_eq _ _ _⟩
  rw [generate_clusters, generate_clusters_loop_gt_length]
  omega

/-- Witness for C5 at a concrete configuration: 3 clusters requested, 3
ground-truth records produced. -/
theorem ground_truth_length_eq_num_clusters_witness :
    (((((generate_clusters 3 ⟨0, 0, 0, 0, 0, 0, 0, 0⟩ ⟨fun _ => 1, 0⟩).2.1).length : ℤ) = 3) ∧
    ((generate_clusters 3 ⟨0, 0, 0, 0, 0, 0, 0, 0⟩ ⟨fun _ => 1, 0⟩).2.1).map (fun e => e.n)
      = ((generate_clusters 3 ⟨0, 0, 0, 0, 0, 0, 0, 0⟩ ⟨fun _ => 1, 0⟩).1).map List.length) :=
  ground_truth_length_eq_num_clusters 3 ⟨0, 0, 0, 0, 0, 0, 0, 0⟩ ⟨fun _ => 1, 0⟩ (by omega)

/-- C3 (amended): with normalized ranges, every ground-truth record's
center and sigma lie in their inclusive ranges; the recorded point count
lies in the point-count range provided additionally that the range's lower
bound is nonnegative (a negative sampled count yields an empty cluster
whose recorded count is 0). -/
theorem cluster_fields_in_ranges (num_clusters : ℤ) (L : Limits) (g : RNG)
    (hp : L.min_points ≤ L.max_points) (hx : L.min_x ≤ L.max_x)
    (hy : L.min_y ≤ L.max_y) (hs : L.min_sigma ≤ L.max_sigma) :
    ∀ e ∈ (generate_clusters num_clusters L g).2.1,
      (L.min_x ≤ e.mean.1 ∧ e.mean.1 ≤ L.max_x) ∧
      (L.min_y ≤ e.mean.2 ∧ e.mean.2 ≤ L.max_y) ∧
      (L.min_sigma ≤ e.sigma ∧ e.sigma ≤ L.max_sigma) ∧
      (0 ≤ L.min_points → L.min_points ≤ (e.n : ℤ) ∧ (e.n : ℤ) ≤ L.max_points) := by
  rw [generate_clusters]
  induction num_clusters.toNat generalizing g with
  | zero => intro e he; simp [generate_clusters_loop] at he
  | succ k ih =>
    intro e he
    simp only [generate_clusters_loop, List.mem_cons] at he
    rcases he with he | he
    · subst he
      refine ⟨randint_mem _ _ _ hx, randint_mem _ _ _ hy, uniform_mem _ _ _ hs, ?_⟩
      intro hpos
      rw [generate_cluster_length]
      dsimp only
      have hmem := randint_mem L.min_points L.max_points
        (uniform L.min_sigma L.max_sigma
          (randint L.min_y L.max_y (randint L.min_x L.max_x g).2).2).2 hp
      omega
    · exact ih _ e he

/-- Witness for C3 at a concrete normalized configuration, instantiated at
the single generated cluster's record. -/
theorem cluster_fields_in_ranges_witness :
    ((10 : ℤ) ≤ (((generate_clusters 1 (⟨2, 5, 10, 20, 10, 20, 1, 2⟩ : Limits)
        (⟨fun _ => 1, 0⟩ : RNG)).2.1).getD 0 ⟨(0, 0), 0, 0⟩).mean.1 ∧
      (((generate_clusters 1 (⟨2, 5, 10, 20, 10, 20, 1, 2⟩ : Limits)
        (⟨fun _ => 1, 0⟩ : RNG)).2.1).getD 0 ⟨(0, 0), 0, 0⟩).mean.1 ≤ 20) ∧
    ((10 : ℤ) ≤ (((generate_clusters 1 (⟨2, 5, 10, 20, 10, 20, 1, 2⟩ : Limits)
        (⟨fun _ => 1, 0⟩ : RNG)).2.1).getD 0 ⟨(0, 0), 0, 0⟩).mean.2 ∧
      (((generate_clusters 1 (⟨2, 5, 10, 20, 10, 20, 1, 2⟩ : Limits)
        (⟨fun _ => 1, 0⟩ : RNG)).2.1).getD 0 ⟨(0, 0), 0, 0⟩).mean.2 ≤ 20) ∧
    ((1 : ℚ) ≤ (((generate_clusters 1 (⟨2, 5, 10, 20, 10, 20, 1, 2⟩ : Limits)
        (⟨fun _ => 1, 0⟩ : RNG)).2.1).getD 0 ⟨(0, 0), 0, 0⟩).sigma ∧
      (((generate_clusters 1 (⟨2, 5, 10, 20, 10, 20, 1, 2⟩ : Limits)
        (⟨fun _ => 1, 0⟩ : RNG)).2.1).getD 0 ⟨(0, 0), 0, 0⟩).sigma ≤ 2) ∧
    ((2 : ℤ) ≤ ((((generate_clusters 1 (⟨2, 5, 10, 20, 10, 20, 1, 2⟩ : Limits)
        (⟨fun _ => 1, 0⟩ : RNG)).2.1).getD 0 ⟨(0, 0), 0, 0⟩).n : ℤ) ∧
      (((((generate_clusters 1 (⟨2, 5, 10, 20, 10, 20, 1, 2⟩ : Limits)
        (⟨fun _ => 1, 0⟩ : RNG)).2.1).getD 0 ⟨(0, 0), 0, 0⟩).n : ℤ) ≤ 5)) := by
  have h := cluster_fields_in_ranges 1 ⟨2, 5, 10, 20, 10, 20, 1, 2⟩ ⟨fun _ => 1, 0⟩
    (by decide) (by decide) (by decide) (by norm_num)
  have hmem : (((generate_clusters 1 (⟨2, 5, 10, 20, 10, 20, 1, 2⟩ : Limits)
      (⟨fun _ => 1, 0⟩ : RNG)).2.1).getD 0 ⟨(0, 0), 0, 0⟩)
      ∈ (generate_clusters 1 (⟨2, 5, 10, 20, 10, 20, 1, 2⟩ : Limits)
      (⟨fun _ => 1, 0⟩ : RNG)).2.1 := by
    simp [generate_clusters, generate_clusters_loop]
  have hE := h _ hmem
  exact ⟨hE.1, hE.2.1, hE.2.2.1, hE.2.2.2 (by decide)⟩

/-- C3 counterexample: with the normalized (min = max) but negative
point-count range `[-3, -3]`, the generated cluster records `n = 0`, which
is outside the inclusive point-count range — the claim as stated fails. -/
theorem point_count_range_counterexample :
    ¬ (∀ e ∈ (generate_clusters 1 (⟨-3, -3, 0, 0, 0, 0, 0, 0⟩ : Limits) ⟨fun _ => 1, 0⟩).2.1,
        (-3 : ℤ) ≤ (e.n : ℤ) ∧ (e.n : ℤ) ≤ -3) := by
  decide

theorem flatten_drop_take_getElem {α : Type} (ls : List (List α)) (i : ℕ) :
    ((ls.flatten).drop (((ls.take i).map List.length).sum)).take
        ((ls[i]?.map List.length).getD 0)
      = (ls[i]?).getD [] := by
  induction ls generalizing i with
  | nil => simp
  | cons l t ih =>
    cases i with
    | zero => simp [List.take_left]
    | succ j =>
      simp only [List.take_succ_cons, List.map_cons, List.sum_cons, List.flatten_cons,
        List.getElem?_cons_succ]
      rw [← List.drop_drop, List.drop_left]
      exact ih j

/-- C10: per cluster (not just in aggregate), the i-th ground-truth record's
`n` equals the i-th generated cluster's actual point count, and the i-th
cluster's points form the contiguous block of that length in the flattened
point list, starting after the points of the previous clusters. -/
theorem per_cluster_count_and_contiguity (num_clusters : ℤ) (L : Limits) (g : RNG) (i : ℕ) :
    ((((generate_clusters num_clusters L g).2.1)[i]?).map (fun e => e.n)
      = (((generate_clusters num_clusters L g).1)[i]?).map List.length) ∧
    ((((generate_clusters num_clusters L g).1.flatten).drop
        (((((generate_clusters num_clusters L g).2.1).take i).map (fun e => e.n)).sum)).take
        (((((generate_clusters num_clusters L g).2.1)[i]?).map (fun e => e.n)).getD 0)
      = ((((generate_clusters num_clusters L g).1)[i]?).getD [])) := by
  have hmap := generate_clusters_loop_n_eq num_clusters.toNat L g
  have h1 : (((generate_clusters num_clusters L g).2.1)[i]?).map (fun e => e.n)
      = (((generate_clusters num_clusters L g).1)[i]?).map List.length := by
    rw [generate_clusters, ← List.getElem?_map, ← List.getElem?_map, hmap]
  refine ⟨h1, ?_⟩
  have h2 : ((((generate_clusters num_clusters L g).2.1).take i).map (fun e => e.n)).sum
      = ((((generate_clusters num_clusters L g).1).take i).map List.length).sum := by
    rw [generate_clusters, List.map_take, List.map_take, hmap]
  rw [h1, h2]
  exact flatten_drop_take_getElem _ i

/-- C1 counterexample: with the same entropy stream, `min-x=2000, max-x=1000`
produces a different centroids file than `min-x=1000, max-x=2000`: the first
run's effective x-range is `[1000, 1000]` (only the lower bound is clamped),
not the swapped `[1000, 2000]`. -/
theorem swap_normalization_counterexample :
    (run (⟨1, 0, 0, 2000, 1000, 1000, 2000, 0, 0⟩ : Args) (⟨true, true⟩ : IOEnv) true
        (⟨fun _ => 1, 0⟩ : RNG)).centroidsFile
      ≠ (run (⟨1, 0, 0, 1000, 2000, 1000, 2000, 0, 0⟩ : Args) (⟨true, true⟩ : IOEnv) true
        (⟨fun _ => 1, 0⟩ : RNG)).centroidsFile := by
  decide

/-- C1 (amended): a configuration with `min-x > max-x` behaves exactly like
the configuration with `min-x` replaced by `max-x` (the lower bound is
clamped to `min(min-x, max-x)`; the upper bound is kept as given, so the
effective range degenerates to `[max-x, max-x]` rather than being swapped) —
identical output files, plot, failure status and console ground truth; only
the console's verbatim parameter echo shows the arguments as passed. -/
theorem min_x_gt_max_x_clamps_lower_bound (a a' : Args) (env : IOEnv) (plt : Bool) (g : RNG)
    (h : a.max_x < a.min_x) (ha' : a' = { a with min_x := a.max_x }) :
    (run a env plt g).pointsFile = (run a' env plt g).pointsFile ∧
    (run a env plt g).centroidsFile = (run a' env plt g).centroidsFile ∧
    (run a env plt g).plot = (run a' env plt g).plot ∧
    (run a env plt g).failed = (run a' env plt g).failed ∧
    (run a env plt g).console.map (fun c => c.2) = (run a' env plt g).console.map (fun c => c.2) := by
  subst ha'
  have hL : normalizeLimits a = normalizeLimits { a with min_x := a.max_x } := by
    simp [normalizeLimits, min_eq_right h.le]
  rcases env with ⟨po, co⟩
  cases po <;> cases co <;> simp [run, hL]

/-- Witness for C1's amended claim: `min-x=2000, max-x=1000` behaves like
`min-x=1000, max-x=1000`. -/
theorem min_x_gt_max_x_clamps_lower_bound_witness :
    ((run (⟨1, 0, 0, 2000, 1000, 1000, 2000, 0, 0⟩ : Args) ⟨true, true⟩ true ⟨fun _ => 1, 0⟩).pointsFile
      = (run (⟨1, 0, 0, 1000, 1000, 1000, 2000, 0, 0⟩ : Args) ⟨true, true⟩ true ⟨fun _ => 1, 0⟩).pointsFile) ∧
    ((run (⟨1, 0, 0, 2000, 1000, 1000, 2000, 0, 0⟩ : Args) ⟨true, true⟩ true ⟨fun _ => 1, 0⟩).centroidsFile
      = (run (⟨1, 0, 0, 1000, 1000, 1000, 2000, 0, 0⟩ : Args) ⟨true, true⟩ true ⟨fun _ => 1, 0⟩).centroidsFile) ∧
    ((run (⟨1, 0, 0, 2000, 1000, 1000, 2000, 0, 0⟩ : Args) ⟨true, true⟩ true ⟨fun _ => 1, 0⟩).plot
      = (run (⟨1, 0, 0, 1000, 1000, 1000, 2000, 0, 0⟩ : Args) ⟨true, true⟩ true ⟨fun _ => 1, 0⟩).plot) ∧
    ((run (⟨1, 0, 0, 2000, 1000, 1000, 2000, 0, 0⟩ : Args) ⟨true, true⟩ true ⟨fun _ => 1, 0⟩).failed
      = (run (⟨1, 0, 0, 1000, 1000, 1000, 2000, 0, 0⟩ : Args) ⟨true, true⟩ true ⟨fun _ => 1, 0⟩).failed) ∧
    ((run (⟨1, 0, 0, 2000, 1000, 1000, 2000, 0, 0⟩ : Args) ⟨true, true⟩ true ⟨fun _ => 1, 0⟩).console.map (fun c => c.2)
      = (run (⟨1, 0, 0, 1000, 1000, 1000, 2000, 0, 0⟩ : Args) ⟨true, true⟩ true ⟨fun _ => 1, 0⟩).console.map (fun c => c.2)) :=
  min_x_gt_max_x_clamps_lower_bound ⟨1, 0, 0, 2000, 1000, 1000, 2000, 0, 0⟩
    ⟨1, 0, 0, 1000, 1000, 1000, 2000, 0, 0⟩ ⟨true, true⟩ true ⟨fun _ => 1, 0⟩
    (by decide) (by decide)

/-- C8: if the points file cannot be opened, the error propagates (the run
fails) and neither file is written — in particular the centroids file is
never subsequently written; a centroids-file failure likewise makes the run
fail. -/
theorem io_failure_propagates (a : Args) (env : IOEnv) (plt : Bool) (g : RNG) :
    (env.pointsOpenOk = false →
      (run a env plt g).failed = true ∧ (run a env plt g).pointsFile = none ∧
      (run a env plt g).centroidsFile = none ∧ (run a env plt g).console = none) ∧
    (env.centroidsOpenOk = false →
      (run a env plt g).failed = true ∧ (run a env plt g).centroidsFile = none) := by
  rcases env with ⟨po, co⟩
  cases po <;> cases co <;> simp [run]

/-- Witness for C8: a failing points destination aborts everything, and a
failing centroids destination fails the run. -/
theorem io_failure_propagates_witness :
    ((run (⟨1, 0, 0, 0, 0, 0, 0, 0, 0⟩ : Args) (⟨false, true⟩ : IOEnv) true ⟨fun _ => 1, 0⟩).failed = true ∧
      (run (⟨1, 0, 0, 0, 0, 0, 0, 0, 0⟩ : Args) (⟨false, true⟩ : IOEnv) true ⟨fun _ => 1, 0⟩).pointsFile = none ∧
      (run (⟨1, 0, 0, 0, 0, 0, 0, 0, 0⟩ : Args) (⟨false, true⟩ : IOEnv) true ⟨fun _ => 1, 0⟩).centroidsFile = none ∧
      (run (⟨1, 0, 0, 0, 0, 0, 0, 0, 0⟩ : Args) (⟨false, true⟩ : IOEnv) true ⟨fun _ => 1, 0⟩).console = none) ∧
    ((run (⟨1, 0, 0, 0, 0, 0, 0, 0, 0⟩ : Args) (⟨true, false⟩ : IOEnv) true ⟨fun _ => 1, 0⟩).failed = true ∧
      (run (⟨1, 0, 0, 0, 0, 0, 0, 0, 0⟩ : Args) (⟨true, false⟩ : IOEnv) true ⟨fun _ => 1, 0⟩).centroidsFile = none) :=
  ⟨(io_failure_propagates ⟨1, 0, 0, 0, 0, 0, 0, 0, 0⟩ ⟨false, true⟩ true ⟨fun _ => 1, 0⟩).1 rfl,
   (io_failure_propagates ⟨1, 0, 0, 0, 0, 0, 0, 0, 0⟩ ⟨true, false⟩ true ⟨fun _ => 1, 0⟩).2 rfl⟩

/-- C9: when the plotting capability is unavailable, `show_plot` is a no-op
that returns without error, and every other output of `run` (points file,
centroids file, console summary, failure status) is exactly what it is with
plotting available. -/
theorem plotting_unavailable_is_noop :
    (∀ (points centroids : List (ℤ × ℤ)) (t : ℤ),
      show_plot false points centroids t = Except.ok none) ∧
    (∀ (a : Args) (env : IOEnv) (g : RNG),
      (run a env false g).pointsFile = (run a env true g).pointsFile ∧
      (run a env false g).centroidsFile = (run a env true g).centroidsFile ∧
      (run a env false g).console = (run a env true g).console ∧
      (run a env false g).failed = (run a env true g).failed) := by
  refine ⟨fun _ _ _ => rfl, fun a env g => ?_⟩
  rcases env with ⟨po, co⟩
  cases po <;> cases co <;> simp [run]

/-- C2 (amended): modelling the random source as a sequential stream, the
first draw of a cluster iteration is the center x coordinate, not the point
count: changing the stream only at the iteration's first position leaves the
point count, sigma and center y unchanged (only center x can change), while
the point count is the fourth draw — changing the stream only at offset 3
leaves the center and sigma unchanged.  The iteration's draw order is
center x, center y, sigma, point count, then the per-point Gaussians. -/
theorem draw_order_first_is_center_x (L : Limits) (s t : ℕ → ℚ) (p : ℕ) :
    ((∀ i, i ≠ p → s i = t i) →
      ((generate_clusters_loop 1 L ⟨s, p⟩).2.1).map (fun e => (e.mean.2, e.sigma, e.n))
        = ((generate_clusters_loop 1 L ⟨t, p⟩).2.1).map (fun e => (e.mean.2, e.sigma, e.n))) ∧
    ((∀ i, i ≠ p + 3 → s i = t i) →
      ((generate_clusters_loop 1 L ⟨s, p⟩).2.1).map (fun e => (e.mean, e.sigma))
        = ((generate_clusters_loop 1 L ⟨t, p⟩).2.1).map (fun e => (e.mean, e.sigma))) := by
  constructor
  · intro h
    have e1 : s (p + 1) = t (p + 1) := h _ (by omega)
    have e2 : s (p + 2) = t (p + 2) := h _ (by omega)
    have e3 : s (p + 3) = t (p + 3) := h _ (by omega)
    simp [generate_clusters_loop, randint, uniform, RNG.next, generate_cluster_length,
      e1, e2, e3]
  · intro h
    have e0 : s p = t p := h _ (by omega)
    have e1 : s (p + 1) = t (p + 1) := h _ (by omega)
    have e2 : s (p + 2) = t (p + 2) := h _ (by omega)
    simp [generate_clusters_loop, randint, uniform, RNG.next, generate_cluster_length,
      e0, e1, e2]

theorem generate_cluster_closed_form (n : ℕ) (mx my : ℤ) (s : ℚ) (g : RNG) :
    (generate_cluster n mx my s g).1 = (List.range n).map (fun i =>
      (pyInt ((mx : ℚ) + s * g.stream (g.pos + 2 * i)),
       pyInt ((my : ℚ) + s * g.stream (g.pos + 2 * i + 1)))) := by
  induction n generalizing g with
  | zero => simp [generate_cluster]
  | succ k ih =>
    rw [List.range_succ_eq_map, List.map_cons]
    simp only [generate_cluster, gauss, RNG.next]
    rw [ih]
    congr 1
    rw [List.map_map]
    apply List.map_congr_left
    intro i hi
    have h1 : g.pos + 1 + 1 + 2 * i = g.pos + 2 * (i + 1) := by omega
    have h2 : g.pos + 1 + 1 + 2 * i + 1 = g.pos + 2 * (i + 1) + 1 := by omega
    simp only [Function.comp, Nat.succ_eq_add_one, h1, h2]

theorem natToDigitsAux_all_lt_10 : ∀ (fuel n : ℕ), n < fuel →
    ∀ d ∈ natToDigitsAux fuel n, d < 10 := by
  intro fuel
  induction fuel with
  | zero => omega
  | succ f ih =>
    intro n hn d hd
    rw [natToDigitsAux] at hd
    split at hd
    · rename_i h10
      simp at hd
      omega
    · rename_i h10
      rw [List.mem_append] at hd
      rcases hd with hd | hd
      · exact ih (n / 10) (by omega) d hd
      · simp at hd
        omega

theorem natToDigitsAux_ne_nil : ∀ (fuel n : ℕ), n < fuel →
    natToDigitsAux fuel n ≠ [] := by
  intro fuel
  induction fuel with
  | zero => omega
  | succ f ih =>
    intro n hn
    rw [natToDigitsAux]
    split
    · simp
    · simp

theorem digitsVal_append_singleton (xs : List ℕ) (d : ℕ) :
    digitsVal (xs ++ [d]) = 10 * digitsVal xs + d := by
  simp [digitsVal, List.foldl_append]
  omega

theorem digitsVal_natToDigitsAux : ∀ (fuel n : ℕ), n < fuel →
    digitsVal (natToDigitsAux fuel n) = n := by
  intro fuel
  induction fuel with
  | zero => omega
  | succ f ih =>
    intro n hn
    rw [natToDigitsAux]
    split
    · simp [digitsVal]
    · rename_i h10
      rw [digitsVal_append_singleton, ih (n / 10) (by omega)]
      omega

theorem digit_char_facts : ∀ d, d < 10 →
    charToDigit (digitToChar d) = d ∧ isDigitChar (digitToChar d) = true ∧
    digitToChar d ≠ Char.ofNat 32 ∧ digitToChar d ≠ Char.ofNat 45 := by
  decide

theorem natChars_ne_nil (n : ℕ) : natChars n ≠ [] := by
  rw [natChars, natToDigits]
  intro h
  rw [List.map_eq_nil_iff] at h
  exact natToDigitsAux_ne_nil (n + 1) n (by omega) h

theorem natChars_facts (n : ℕ) : ∀ c ∈ natChars n,
    isDigitChar c = true ∧ c ≠ Char.ofNat 32 ∧ c ≠ Char.ofNat 45 := by
  intro c hc
  rw [natChars, List.mem_map] at hc
  obtain ⟨d, hd, rfl⟩ := hc
  have h10 := natToDigitsAux_all_lt_10 (n + 1) n (by omega) d hd
  exact (digit_char_facts d h10).2

theorem parseNat_natChars (n : ℕ) : parseNat (natChars n) = some n := by
  rw [parseNat, if_pos]
  · congr 1
    rw [natChars, List.map_map]
    have : ∀ d ∈ natToDigits n, (charToDigit ∘ digitToChar) d = d := by
      intro d hd
      exact (digit_char_facts d (natToDigitsAux_all_lt_10 (n + 1) n (by omega) d hd)).1
    rw [List.map_congr_left this, List.map_id']
    exact digitsVal_natToDigitsAux (n + 1) n (by omega)
  · refine ⟨natChars_ne_nil n, ?_⟩
    rw [List.all_eq_true]
    intro c hc
    exact (natChars_facts n c hc).1

theorem intChars_ne_nil (z : ℤ) : intChars z ≠ [] := by
  rw [intChars]
  split
  · simp
  · exact natChars_ne_nil _

theorem intChars_no_space (z : ℤ) : ∀ c ∈ intChars z, c ≠ Char.ofNat 32 := by
  intro c hc
  rw [intChars] at hc
  split at hc
  · rcases hc with _ | hc
    · decide
    · exact (natChars_facts _ c (by assumption)).2.1
  · exact (natChars_facts _ c hc).2.1

theorem parseInt_intChars (z : ℤ) : parseInt (intChars z) = some z := by
  by_cases hz : z < 0
  · rw [intChars, if_pos hz, parseInt, if_pos (by rw [List.head?_cons])]
    rw [List.tail_cons, parseNat_natChars, Option.map_some']
    congr 1
    simp only [Int.ofNat_eq_coe]
    omega
  · have hhead : (natChars z.toNat).head? ≠ some (Char.ofNat 45) := by
      obtain ⟨c, cs, hd⟩ : ∃ c cs, natChars z.toNat = c :: cs := by
        cases hcs : natChars z.toNat with
        | nil => exact absurd hcs (natChars_ne_nil _)
        | cons c cs => exact ⟨c, cs, rfl⟩
      have hne := (natChars_facts _ c (hd ▸ List.mem_cons_self _ _)).2.2
      rw [hd, List.head?_cons]
      simp [hne]
    rw [intChars, if_neg hz, parseInt, if_neg hhead, parseNat_natChars, Option.map_some']
    congr 1
    simp only [Int.ofNat_eq_coe]
    omega

theorem splitWsAux_append_no_space : ∀ (a rest acc : List Char),
    (∀ c ∈ a, c ≠ Char.ofNat 32) →
    splitWsAux (a ++ rest) acc = splitWsAux rest (a.reverse ++ acc) := by
  intro a
  induction a with
  | nil => intro rest acc _; simp
  | cons c a' ih =>
    intro rest acc h
    have hc : c ≠ Char.ofNat 32 := h c (List.mem_cons_self _ _)
    rw [List.cons_append, splitWsAux, if_neg hc, ih rest (c :: acc)
      (fun x hx => h x (List.mem_cons_of_mem _ hx))]
    simp

theorem splitWs_no_space_single (b : List Char) (hb : b ≠ [])
    (h : ∀ c ∈ b, c ≠ Char.ofNat 32) : splitWs b = [b] := by
  rw [splitWs, ← List.append_nil b, splitWsAux_append_no_space b [] [] h]
  rw [splitWsAux, List.append_nil]
  rw [if_neg (by simp [hb])]
  simp

theorem splitWs_pair (a b : List Char) (ha : a ≠ []) (hb : b ≠ [])
    (hsa : ∀ c ∈ a, c ≠ Char.ofNat 32) (hsb : ∀ c ∈ b, c ≠ Char.ofNat 32) :
    splitWs (a ++ Char.ofNat 32 :: b) = [a, b] := by
  rw [splitWs, splitWsAux_append_no_space a _ [] hsa, List.append_nil, splitWsAux,
    if_pos rfl]
  rw [if_neg (by simp [ha])]
  rw [List.reverse_reverse]
  rw [show splitWsAux b [] = splitWs b from rfl, splitWs_no_space_single b hb hsb]

theorem parse_line (p : ℤ × ℤ) : (splitWs (lineOf p)).map parseInt = [some p.1, some p.2] := by
  rw [lineOf, splitWs_pair _ _ (intChars_ne_nil _) (intChars_ne_nil _)
    (intChars_no_space _) (intChars_no_space _)]
  simp [parseInt_intChars]

/-- C2 counterexample: the code's sampler and a sampler that follows the
spec's stated draw order (point count first, then center x, center y,
sigma) produce different clusters from the same entropy stream — the code
does not consume draws in the spec's order. -/
theorem draw_order_counterexample :
    ((generate_clusters_loop 1 (⟨0, 10, 0, 10, 0, 10, 0, 0⟩ : Limits)
        (⟨fun i => if i = 0 then 1 else 0, 0⟩ : RNG)).2.1).map (fun e => (e.mean, e.n))
      ≠ ((generate_clusters_spec_order_loop 1 (⟨0, 10, 0, 10, 0, 10, 0, 0⟩ : Limits)
        (⟨fun i => if i = 0 then 1 else 0, 0⟩ : RNG)).2.1).map (fun e => (e.mean, e.n)) := by
  decide

/-- Witness for C2's amended claim at concrete streams: perturbing the
stream's first position leaves point count, sigma and center y unchanged,
and perturbing position 3 leaves center and sigma unchanged. -/
theorem draw_order_first_is_center_x_witness :
    (((generate_clusters_loop 1 (⟨0, 10, 0, 10, 0, 10, 0, 0⟩ : Limits)
        (⟨fun i => if i = 0 then 5 else 0, 0⟩ : RNG)).2.1).map (fun e => (e.mean.2, e.sigma, e.n))
      = ((generate_clusters_loop 1 (⟨0, 10, 0, 10, 0, 10, 0, 0⟩ : Limits)
        (⟨fun _ => 0, 0⟩ : RNG)).2.1).map (fun e => (e.mean.2, e.sigma, e.n))) ∧
    (((generate_clusters_loop 1 (⟨0, 10, 0, 10, 0, 10, 0, 0⟩ : Limits)
        (⟨fun i => if i = 3 then 5 else 0, 0⟩ : RNG)).2.1).map (fun e => (e.mean, e.sigma))
      = ((generate_clusters_loop 1 (⟨0, 10, 0, 10, 0, 10, 0, 0⟩ : Limits)
        (⟨fun _ => 0, 0⟩ : RNG)).2.1).map (fun e => (e.mean, e.sigma))) :=
  ⟨(draw_order_first_is_center_x ⟨0, 10, 0, 10, 0, 10, 0, 0⟩
      (fun i => if i = 0 then 5 else 0) (fun _ => 0) 0).1 (fun i hi => by simp [hi]),
   (draw_order_first_is_center_x ⟨0, 10, 0, 10, 0, 10, 0, 0⟩
      (fun i => if i = 3 then 5 else 0) (fun _ => 0) 0).2 (fun i hi => by simp [hi])⟩

/-- C6: every generated point is the truncation toward zero of the sampled
Gaussian float — point `i` of a cluster is `int(gauss(mean, sigma))` on
consecutive draws, `int()` is floor for nonnegative and ceiling for
negative values (truncation toward zero), and in particular `-1.7` becomes
`-1`, not the rounded `-2`. -/
theorem truncation_toward_zero :
    (∀ (n : ℕ) (mx my : ℤ) (s : ℚ) (g : RNG),
      (generate_cluster n mx my s g).1 = (List.range n).map (fun i =>
        (pyInt ((mx : ℚ) + s * g.stream (g.pos + 2 * i)),
         pyInt ((my : ℚ) + s * g.stream (g.pos + 2 * i + 1))))) ∧
    (∀ q : ℚ, pyInt q = if 0 ≤ q then ⌊q⌋ else ⌈q⌉) ∧
    pyInt (-17/10 : ℚ) = -1 ∧ pyInt (-17/10 : ℚ) ≠ -2 := by
  have h2 : ∀ q : ℚ, pyInt q = if 0 ≤ q then ⌊q⌋ else ⌈q⌉ := by
    intro q
    rw [pyInt]
    split
    · exact ratFloor_eq_floor q
    · exact ratCeil_eq_ceil q
  have h3 : pyInt (-17/10 : ℚ) = -1 := by
    rw [show (-17/10 : ℚ) = mkRat (-17) 10 from by rw [Rat.mkRat_eq_div]; norm_num]
    decide
  exact ⟨generate_cluster_closed_form, h2, h3, by rw [h3]; decide⟩

/-- C7: the file lines written for a point list — the components' decimal
string forms joined by a single space — split on whitespace and parsed back
as two integers, reconstruct exactly the original points, line by line in
the original order.  (The centroids file uses the same writer on the
centroid list.) -/
theorem write_points_round_trip (points : List (ℤ × ℤ)) :
    (write_points_to_file points).map (fun l => (splitWs l).map parseInt)
      = points.map (fun p => [some p.1, some p.2]) := by
  rw [write_points_to_file, List.map_map]
  apply List.map_congr_left
  intro p _
  simp only [Function.comp]
  exact parse_line p
